import Mathlib

/-!
Verification of the insert-query-builder of a SQL query construction layer.

The builder itself (`InsertQueryBuilder` and its methods) is translated from
`src/query-builder/insert-query-builder.ts`.  Its collaborators — the operation
node model, the value/expression parsers, the query executor, the plugin
pipeline, the driver/adapter and the compiled-query value — are not part of the
analysed source; they are modelled from the specification (sections 3, 4.1,
4.2, 4.4, 4.6 and 6) and are marked `Modelled from the spec:` below.
-/

/-- Modelled from the spec: the query identity token is an opaque value,
modelled as a natural number. -/
abbrev QueryId := Nat

/-- Modelled from the spec: a result row; its shape is irrelevant to the
builder, so it is modelled as a natural number. -/
abbrev Row := Nat

/-- Modelled from the spec: a column node of the Node Model, carrying the
column identifier (identifiers modelled as naturals). -/
structure ColumnNode where
  column : Nat
deriving DecidableEq, Repr

/-- Construction function of the Node Model for column nodes. -/
def ColumnNode.create (c : Nat) : ColumnNode := ⟨c⟩

/-- Modelled from the spec: the values-source fragment of an insert root
(explicit row list, subquery or expression); opaque to the builder. -/
abbrev ValuesNode := Nat

/-- Modelled from the spec: a conflict-clause node; opaque to the builder. -/
abbrev OnConflictNode := Nat

/-- Modelled from the spec: construction function for an empty conflict
clause node. -/
def OnConflictNode.create : OnConflictNode := 0

/-- Modelled from the spec: a duplicate-key-update node wrapping the parsed
update expressions. -/
structure OnDuplicateKeyNode where
  updates : Nat
deriving DecidableEq, Repr

/-- Construction function of the Node Model for duplicate-key-update nodes. -/
def OnDuplicateKeyNode.create (u : Nat) : OnDuplicateKeyNode := ⟨u⟩

/-- Modelled from the spec: caller input to the duplicate-key-update clause;
opaque to the builder. -/
abbrev UpdateExpression := Nat

/-- Modelled from the spec: the update-set parser normalizes the caller's
update expression; its source is absent, so it is the identity on the
already-normalized form. -/
def parseUpdateExpression (u : UpdateExpression) : Nat := u

/-- Modelled from the spec: a selected expression of a returning clause,
either a select-all or an opaque expression. -/
inductive SelectionNode where
  | selectAll : SelectionNode
  | expr (n : Nat) : SelectionNode
deriving DecidableEq, Repr

/-- Modelled from the spec: the select-argument normalizer; its source is
absent, so it is the identity on the already-normalized selection list. -/
def parseSelectArg (s : List SelectionNode) : List SelectionNode := s

/-- Modelled from the spec: the select-all selection produced by
`returningAll`. -/
def parseSelectAll : List SelectionNode := [SelectionNode.selectAll]

/-- Modelled from the spec: an explain clause node carrying an optional
format and optional options expression. -/
structure ExplainNode where
  format : Option Nat
  options : Option Nat
deriving DecidableEq, Repr

/-- The insert query root node (spec section 3): target table, optional
ordered target columns, optional values-source, optional ignore flag,
optional conflict clause, optional duplicate-key-update clause, optional
returning clause, optional explain clause. -/
structure InsertQueryNode where
  into : Nat
  columns : Option (List ColumnNode)
  values : Option ValuesNode
  ignore : Option Bool
  onConflict : Option OnConflictNode
  onDuplicateKey : Option OnDuplicateKeyNode
  returning : Option (List SelectionNode)
  explain : Option ExplainNode
deriving DecidableEq, Repr

/-- Modelled from the spec: the Node Model clone-with for attaching a
returning clause — a new node whose returning clause holds the previous
selections (if any) extended with the new ones, all other fields copied. -/
def QueryNode.cloneWithReturning (node : InsertQueryNode)
    (selections : List SelectionNode) : InsertQueryNode :=
  { node with returning := some ((node.returning.getD []) ++ selections) }

/-- Modelled from the spec: the Node Model clone-with for attaching an
explain clause. -/
def QueryNode.cloneWithExplain (node : InsertQueryNode)
    (format explainOptions : Option Nat) : InsertQueryNode :=
  { node with explain := some ⟨format, explainOptions⟩ }

/-- Modelled from the spec: caller input to `values`, already normalized by
the insert-values parser (whose source is absent) into an ordered column-node
sequence and a values-node. -/
structure InsertExpression where
  parsedColumns : List ColumnNode
  parsedValues : ValuesNode
deriving DecidableEq, Repr

/-- Modelled from the spec: the insert-values parser produces the pair
(ordered column-node sequence, values-node). -/
def parseInsertExpression (insert : InsertExpression) :
    List ColumnNode × ValuesNode :=
  (insert.parsedColumns, insert.parsedValues)

/-- Modelled from the spec: caller input to `expression`; opaque. -/
abbrev ExpressionArg := ValuesNode

/-- Modelled from the spec: the expression parser; identity on the
already-normalized expression. -/
def parseExpression (e : ExpressionArg) : ValuesNode := e

/-- Modelled from the spec: the conflict-clause sub-builder handed to the
`onConflict` callback. -/
structure OnConflictBuilder where
  onConflictNode : OnConflictNode

/-- Modelled from the spec: a finished conflict-clause sub-builder (either
the do-nothing or the do-update variant). -/
structure OnConflictDoneBuilder where
  onConflictNode : OnConflictNode

/-- The finished conflict sub-builder exposes its operation node. -/
def OnConflictDoneBuilder.toOperationNode (b : OnConflictDoneBuilder) :
    OnConflictNode :=
  b.onConflictNode

/-- Modelled from the spec: the synthesized result of a mutation query
without a returning clause, carrying the server-reported last-insert-id and
affected-row count. -/
structure InsertResult where
  insertId : Option Nat
  numAffectedRows : Option Nat
deriving DecidableEq, Repr

/-- An element of the list returned by `execute`: either a driver-sourced
row or a synthesized `InsertResult`. -/
abbrev ExecRow := Sum Row InsertResult

/-- Modelled from the spec: a raw execution result from the driver/adapter
boundary — rows, optional insert id, optional affected-row count, and the
deprecated updated-or-deleted count that `execute` still falls back to. -/
structure QueryResult where
  rows : List Row
  insertId : Option Nat
  numAffectedRows : Option Nat
  numUpdatedOrDeletedRows : Option Nat
deriving DecidableEq, Repr

/-- Modelled from the spec: a compiled query pairs the rendered SQL artifact
(abstracted to a natural) with a back-reference to the AST root it was
compiled from. -/
structure CompiledQuery where
  sql : Nat
  query : InsertQueryNode
deriving DecidableEq, Repr

/-- Modelled from the spec: a plugin exposes a transform-query hook and a
transform-result hook, each receiving the query identity token. -/
structure KyselyPlugin where
  transformQuery : InsertQueryNode → QueryId → InsertQueryNode
  transformResult : QueryResult → QueryId → QueryResult

/-- Modelled from the spec: the dialect adapter exposes the
`supportsReturning` capability flag. -/
structure DialectAdapter where
  supportsReturning : Bool

/-- Modelled from the spec: the external driver collaborator — one round
trip returning a raw result, and a chunked streaming round trip returning a
sequence of row chunks. -/
structure Driver where
  executeQuery : CompiledQuery → QueryResult
  streamQuery : CompiledQuery → Nat → List (List Row)

/-- Modelled from the spec: the query executor holds the ordered plugin
list, the dialect compiler (rendering abstracted to a natural), the dialect
adapter and the driver collaborator. -/
structure QueryExecutor where
  plugins : List KyselyPlugin
  renderSql : InsertQueryNode → Nat
  adapter : DialectAdapter
  driver : Driver

/-- Modelled from the spec: the executor applies every registered plugin's
transform-query hook in registration order. -/
def QueryExecutor.transformQuery (e : QueryExecutor) (node : InsertQueryNode)
    (queryId : QueryId) : InsertQueryNode :=
  e.plugins.foldl (fun n p => p.transformQuery n queryId) node

/-- Modelled from the spec: the executor applies every registered plugin's
transform-result hook in registration order. -/
def QueryExecutor.transformResult (e : QueryExecutor) (result : QueryResult)
    (queryId : QueryId) : QueryResult :=
  e.plugins.foldl (fun r p => p.transformResult r queryId) result

/-- Modelled from the spec: compileQuery calls the dialect compiler on the
node; the compiled query keeps a back-reference to that node. -/
def QueryExecutor.compileQuery (e : QueryExecutor) (node : InsertQueryNode)
    (_queryId : QueryId) : CompiledQuery :=
  ⟨e.renderSql node, node⟩

/-- Modelled from the spec: executeQuery dispatches to the driver and applies
the result-transform plugin stage to the raw result. -/
def QueryExecutor.executeQuery (e : QueryExecutor) (compiledQuery : CompiledQuery)
    (queryId : QueryId) : QueryResult :=
  e.transformResult (e.driver.executeQuery compiledQuery) queryId

/-- Modelled from the spec: the executor's stream retrieves the driver's
chunks and applies the result-transform plugin stage once per chunk. -/
def QueryExecutor.stream (e : QueryExecutor) (compiledQuery : CompiledQuery)
    (chunkSize : Nat) (queryId : QueryId) : List (List Row) :=
  (e.driver.streamQuery compiledQuery chunkSize).map
    (fun rows => (e.transformResult ⟨rows, none, none, none⟩ queryId).rows)

/-- Modelled from the spec: withPlugin returns a new executor value with the
plugin appended to the plugin list. -/
def QueryExecutor.withPlugin (e : QueryExecutor) (plugin : KyselyPlugin) :
    QueryExecutor :=
  { e with plugins := e.plugins ++ [plugin] }

/-- Helper for stating driver-independence: the same executor with the driver
collaborator replaced. -/
def QueryExecutor.withDriver (e : QueryExecutor) (d : Driver) : QueryExecutor :=
  { e with driver := d }

/-- Errors thrown by the execute-take-first-or-throw path: the default
no-result error (carrying the operation node), or a caller-supplied error
(tag abstracted to a natural, also carrying the node it was built from). -/
inductive QueryError where
  | noResult (node : InsertQueryNode)
  | custom (tag : Nat) (node : InsertQueryNode)
deriving DecidableEq, Repr

/-- The `errorConstructor` argument of `executeTakeFirstOrThrow`: either a
no-result-error constructor or a plain callback, both receiving the
operation node. -/
inductive NoResultErrorArg where
  | ctor (build : InsertQueryNode → QueryError)
  | callback (f : InsertQueryNode → QueryError)

/-- Discriminates the constructor form from the callback form, as the
source's `isNoResultErrorConstructor` does. -/
def isNoResultErrorConstructor : NoResultErrorArg → Bool
  | NoResultErrorArg.ctor _ => true
  | NoResultErrorArg.callback _ => false

/-- Modelled from the spec: `freeze` makes the props object immutable; in a
value semantics it is the identity. -/
def freeze {α : Type} (a : α) : α := a

/-- The props of an insert query builder: identity token, current AST root,
executor reference. -/
structure InsertQueryBuilderProps where
  queryId : QueryId
  queryNode : InsertQueryNode
  executor : QueryExecutor

/-- The insert query builder, wrapping its frozen props. -/
structure InsertQueryBuilder where
  props : InsertQueryBuilderProps

/-- The builder constructor freezes the given props. -/
def InsertQueryBuilder.mk' (props : InsertQueryBuilderProps) :
    InsertQueryBuilder :=
  ⟨freeze props⟩

/-- `values`: parse the insert expression and return a new builder whose
query node is the old node cloned with the parsed columns and values. -/
def InsertQueryBuilder.values (b : InsertQueryBuilder)
    (insert : InsertExpression) : InsertQueryBuilder :=
  let parsed := parseInsertExpression insert
  InsertQueryBuilder.mk'
    { b.props with
      queryNode :=
        { b.props.queryNode with
          columns := some parsed.1
          values := some parsed.2 } }

/-- `columns`: return a new builder whose query node is the old node cloned
with the given column list. -/
def InsertQueryBuilder.columns (b : InsertQueryBuilder)
    (cols : List Nat) : InsertQueryBuilder :=
  InsertQueryBuilder.mk'
    { b.props with
      queryNode :=
        { b.props.queryNode with
          columns := some (freeze (cols.map ColumnNode.create)) } }

/-- `expression`: return a new builder whose query node is the old node
cloned with the parsed expression as values-source. -/
def InsertQueryBuilder.expression (b : InsertQueryBuilder)
    (e : ExpressionArg) : InsertQueryBuilder :=
  InsertQueryBuilder.mk'
    { b.props with
      queryNode :=
        { b.props.queryNode with values := some (parseExpression e) } }

/-- `ignore`: return a new builder whose query node is the old node cloned
with the ignore flag set. -/
def InsertQueryBuilder.ignore (b : InsertQueryBuilder) : InsertQueryBuilder :=
  InsertQueryBuilder.mk'
    { b.props with
      queryNode := { b.props.queryNode with ignore := some true } }

/-- `onConflict`: run the callback on a fresh conflict sub-builder and
return a new builder whose query node is the old node cloned with the
resulting conflict node. -/
def InsertQueryBuilder.onConflict (b : InsertQueryBuilder)
    (callback : OnConflictBuilder → OnConflictDoneBuilder) :
    InsertQueryBuilder :=
  InsertQueryBuilder.mk'
    { b.props with
      queryNode :=
        { b.props.queryNode with
          onConflict :=
            some ((callback ⟨OnConflictNode.create⟩).toOperationNode) } }

/-- `onDuplicateKeyUpdate`: return a new builder whose query node is the old
node cloned with a duplicate-key-update node built from the parsed update
expression. -/
def InsertQueryBuilder.onDuplicateKeyUpdate (b : InsertQueryBuilder)
    (update : UpdateExpression) : InsertQueryBuilder :=
  InsertQueryBuilder.mk'
    { b.props with
      queryNode :=
        { b.props.queryNode with
          onDuplicateKey :=
            some (OnDuplicateKeyNode.create (parseUpdateExpression update)) } }

/-- `returning`: return a new builder whose query node is the old node
cloned with the parsed selections attached to the returning clause. -/
def InsertQueryBuilder.returning (b : InsertQueryBuilder)
    (selection : List SelectionNode) : InsertQueryBuilder :=
  InsertQueryBuilder.mk'
    { b.props with
      queryNode :=
        QueryNode.cloneWithReturning b.props.queryNode
          (parseSelectArg selection) }

/-- `returningAll`: return a new builder whose query node is the old node
cloned with a select-all returning clause. -/
def InsertQueryBuilder.returningAll (b : InsertQueryBuilder) :
    InsertQueryBuilder :=
  InsertQueryBuilder.mk'
    { b.props with
      queryNode :=
        QueryNode.cloneWithReturning b.props.queryNode parseSelectAll }

/-- `$call`: apply the given function to the builder itself. -/
def InsertQueryBuilder.dollarCall {α : Type} (b : InsertQueryBuilder)
    (func : InsertQueryBuilder → α) : α :=
  func b

/-- `$if`: apply the transform to the builder when the condition is true;
otherwise return a new builder with the same props. -/
def InsertQueryBuilder.dollarIf (b : InsertQueryBuilder) (condition : Bool)
    (func : InsertQueryBuilder → InsertQueryBuilder) : InsertQueryBuilder :=
  if condition then
    func b
  else
    InsertQueryBuilder.mk' { b.props with }

/-- `$castTo`: return a new builder with the same props (the cast is purely
type-level in the source). -/
def InsertQueryBuilder.dollarCastTo (b : InsertQueryBuilder) :
    InsertQueryBuilder :=
  InsertQueryBuilder.mk' b.props

/-- `withPlugin`: return a new builder whose executor is the old executor
with the plugin installed. -/
def InsertQueryBuilder.withPlugin (b : InsertQueryBuilder)
    (plugin : KyselyPlugin) : InsertQueryBuilder :=
  InsertQueryBuilder.mk'
    { b.props with executor := b.props.executor.withPlugin plugin }

/-- `toOperationNode`: the executor's plugin query-transform stage applied
to the current root, under the builder's query id. -/
def InsertQueryBuilder.toOperationNode (b : InsertQueryBuilder) :
    InsertQueryNode :=
  b.props.executor.transformQuery b.props.queryNode b.props.queryId

/-- `compile`: compile the transformed operation node under the builder's
query id. -/
def InsertQueryBuilder.compile (b : InsertQueryBuilder) : CompiledQuery :=
  b.props.executor.compileQuery b.toOperationNode b.props.queryId

/-- `execute`: compile, dispatch to the executor, and either surface the
result rows (when the adapter supports returning and the compiled query has
a returning clause) or synthesize a one-element `InsertResult` list. -/
def InsertQueryBuilder.execute (b : InsertQueryBuilder) : List ExecRow :=
  let compiledQuery := b.compile
  let query := compiledQuery.query
  let result := b.props.executor.executeQuery compiledQuery b.props.queryId
  if b.props.executor.adapter.supportsReturning && query.returning.isSome then
    result.rows.map Sum.inl
  else
    [Sum.inr
      ⟨result.insertId,
        result.numAffectedRows.orElse
          (fun _ => result.numUpdatedOrDeletedRows)⟩]

/-- `executeTakeFirst`: the first element of `execute`, or the empty-result
marker. -/
def InsertQueryBuilder.executeTakeFirst (b : InsertQueryBuilder) :
    Option ExecRow :=
  (b.execute).head?

/-- `executeTakeFirstOrThrow`: the first result, or an error built by the
given constructor or callback from the operation node. -/
def InsertQueryBuilder.executeTakeFirstOrThrow (b : InsertQueryBuilder)
    (errorConstructor : NoResultErrorArg) : Except QueryError ExecRow :=
  match b.executeTakeFirst with
  | none =>
    Except.error
      (match errorConstructor with
        | NoResultErrorArg.ctor build => build b.toOperationNode
        | NoResultErrorArg.callback f => f b.toOperationNode)
  | some result => Except.ok result

/-- `executeTakeFirstOrThrow` with the default argument `NoResultError`. -/
def InsertQueryBuilder.executeTakeFirstOrThrowDefault (b : InsertQueryBuilder) :
    Except QueryError ExecRow :=
  b.executeTakeFirstOrThrow (NoResultErrorArg.ctor QueryError.noResult)

/-- `stream`: compile, open the executor stream with the given chunk size
and yield every chunk's rows in order. -/
def InsertQueryBuilder.stream (b : InsertQueryBuilder) (chunkSize : Nat) :
    List Row :=
  (b.props.executor.stream b.compile chunkSize b.props.queryId).flatten

/-- `stream` with the default chunk size of 100. -/
def InsertQueryBuilder.streamDefault (b : InsertQueryBuilder) : List Row :=
  b.stream 100

/-- `explain`: execute a copy of this builder whose query node carries an
explain clause. -/
def InsertQueryBuilder.explain (b : InsertQueryBuilder)
    (format explainOptions : Option Nat) : List ExecRow :=
  (InsertQueryBuilder.mk'
    { b.props with
      queryNode :=
        QueryNode.cloneWithExplain b.props.queryNode format
          explainOptions }).execute

/-- The synthesized single result `execute` produces for a mutation query
without a surfaced returning clause. -/
def InsertQueryBuilder.synthesizedInsertResult (b : InsertQueryBuilder) :
    InsertResult :=
  ⟨(b.props.executor.executeQuery b.compile b.props.queryId).insertId,
    (b.props.executor.executeQuery b.compile b.props.queryId).numAffectedRows.orElse
      (fun _ =>
        (b.props.executor.executeQuery b.compile
          b.props.queryId).numUpdatedOrDeletedRows)⟩

/-- A concrete driver reporting two result rows and chunks of sizes
2, 2 and 1. -/
def sampleDriver : Driver :=
  ⟨fun _ => ⟨[10, 20], some 7, some 3, none⟩,
    fun _ _ => [[1, 2], [3, 4], [5]]⟩

/-- A concrete driver reporting zero result rows and no chunks. -/
def emptyRowsDriver : Driver :=
  ⟨fun _ => ⟨[], some 7, some 3, none⟩, fun _ _ => []⟩

/-- A bare insert query root with no optional clause set. -/
def baseNode : InsertQueryNode :=
  ⟨1, none, none, none, none, none, none, none⟩

/-- The bare insert root extended with a select-all returning clause. -/
def returningNode : InsertQueryNode :=
  { baseNode with returning := some [SelectionNode.selectAll] }

/-- A plugin-free executor over the given returning capability and driver. -/
def plainExecutor (supportsReturning : Bool) (d : Driver) : QueryExecutor :=
  ⟨[], fun _ => 0, ⟨supportsReturning⟩, d⟩

/-- A builder whose query has no returning clause, over an adapter that does
not support returning. -/
def builderNoReturning : InsertQueryBuilder :=
  ⟨⟨42, baseNode, plainExecutor false sampleDriver⟩⟩

/-- A builder with a returning clause over a returning-capable adapter whose
driver reports two rows. -/
def builderWithReturning : InsertQueryBuilder :=
  ⟨⟨42, returningNode, plainExecutor true sampleDriver⟩⟩

/-- A builder with a returning clause over a returning-capable adapter whose
driver reports zero rows. -/
def builderEmptyRows : InsertQueryBuilder :=
  ⟨⟨42, returningNode, plainExecutor true emptyRowsDriver⟩⟩

/-- C1: every builder method (values, columns, expression, ignore,
onConflict, onDuplicateKeyUpdate, returning, returningAll, withPlugin) is a
pure clone-with-edits: the derived builder keeps the original's query id
(and, for the node-editing methods, the original's executor), and its query
node is exactly the non-destructive functional update of the original root —
so the original builder's props are untouched and two calls with identical
arguments yield structurally equal query roots. -/
theorem InsertQueryBuilder.builder_methods_immutable
    (b : InsertQueryBuilder) (i : InsertExpression) (cols : List Nat)
    (e : ExpressionArg) (cb : OnConflictBuilder → OnConflictDoneBuilder)
    (u : UpdateExpression) (sel : List SelectionNode) (p : KyselyPlugin) :
    ((b.values i).props.queryId = b.props.queryId ∧
      (b.values i).props.executor = b.props.executor ∧
      (b.values i).props.queryNode =
        { b.props.queryNode with
            columns := some i.parsedColumns,
            values := some i.parsedValues }) ∧
    ((b.columns cols).props.queryId = b.props.queryId ∧
      (b.columns cols).props.executor = b.props.executor ∧
      (b.columns cols).props.queryNode =
        { b.props.queryNode with
            columns := some (cols.map ColumnNode.create) }) ∧
    ((b.expression e).props.queryId = b.props.queryId ∧
      (b.expression e).props.executor = b.props.executor ∧
      (b.expression e).props.queryNode =
        { b.props.queryNode with values := some e }) ∧
    ((b.ignore).props.queryId = b.props.queryId ∧
      (b.ignore).props.executor = b.props.executor ∧
      (b.ignore).props.queryNode =
        { b.props.queryNode with ignore := some true }) ∧
    ((b.onConflict cb).props.queryId = b.props.queryId ∧
      (b.onConflict cb).props.executor = b.props.executor ∧
      (b.onConflict cb).props.queryNode =
        { b.props.queryNode with
            onConflict :=
              some ((cb ⟨OnConflictNode.create⟩).toOperationNode) }) ∧
    ((b.onDuplicateKeyUpdate u).props.queryId = b.props.queryId ∧
      (b.onDuplicateKeyUpdate u).props.executor = b.props.executor ∧
      (b.onDuplicateKeyUpdate u).props.queryNode =
        { b.props.queryNode with
            onDuplicateKey := some (OnDuplicateKeyNode.create u) }) ∧
    ((b.returning sel).props.queryId = b.props.queryId ∧
      (b.returning sel).props.executor = b.props.executor ∧
      (b.returning sel).props.queryNode =
        QueryNode.cloneWithReturning b.props.queryNode sel) ∧
    ((b.returningAll).props.queryId = b.props.queryId ∧
      (b.returningAll).props.executor = b.props.executor ∧
      (b.returningAll).props.queryNode =
        QueryNode.cloneWithReturning b.props.queryNode parseSelectAll) ∧
    ((b.withPlugin p).props.queryId = b.props.queryId ∧
      (b.withPlugin p).props.queryNode = b.props.queryNode ∧
      (b.withPlugin p).props.executor = b.props.executor.withPlugin p) :=
  ⟨⟨rfl, rfl, rfl⟩, ⟨rfl, rfl, rfl⟩, ⟨rfl, rfl, rfl⟩, ⟨rfl, rfl, rfl⟩,
    ⟨rfl, rfl, rfl⟩, ⟨rfl, rfl, rfl⟩, ⟨rfl, rfl, rfl⟩, ⟨rfl, rfl, rfl⟩,
    ⟨rfl, rfl, rfl⟩⟩

/-- C2: execute surfaces the executor's result rows exactly when the adapter
supports returning and the compiled query has a returning clause; otherwise
it returns the one-element list holding the synthesized InsertResult built
from the reported insert id and affected-row count, never the driver rows. -/
theorem InsertQueryBuilder.execute_returning_fallback (b : InsertQueryBuilder) :
    (b.props.executor.adapter.supportsReturning = false ∨
        (b.compile).query.returning = none →
      b.execute = [Sum.inr b.synthesizedInsertResult]) ∧
    (b.props.executor.adapter.supportsReturning = true ∧
        (b.compile).query.returning.isSome = true →
      b.execute =
        ((b.props.executor.executeQuery b.compile b.props.queryId).rows).map
          Sum.inl) := by
  constructor
  · intro h
    rcases h with h | h
    · simp [InsertQueryBuilder.execute, InsertQueryBuilder.synthesizedInsertResult, h]
    · simp [InsertQueryBuilder.execute, InsertQueryBuilder.synthesizedInsertResult, h]
  · rintro ⟨h1, h2⟩
    simp [InsertQueryBuilder.execute, h1, h2]

/-- Witness for C2: a returning-incapable adapter yields exactly the
synthesized result, and a returning-capable adapter with a returning clause
yields exactly the driver rows. -/
theorem InsertQueryBuilder.execute_returning_fallback_witness :
    InsertQueryBuilder.execute builderNoReturning =
        [Sum.inr ⟨some 7, some 3⟩] ∧
      InsertQueryBuilder.execute builderWithReturning =
        [Sum.inl 10, Sum.inl 20] :=
  ⟨(InsertQueryBuilder.execute_returning_fallback builderNoReturning).1
      (Or.inl rfl),
    (InsertQueryBuilder.execute_returning_fallback builderWithReturning).2
      ⟨rfl, rfl⟩⟩

/-- C3: compile is the executor's compileQuery composed with its plugin
transform-query stage on the builder's current root, the compiled query
back-references the transformed node, and compile never touches the driver:
replacing the driver collaborator leaves the compiled query unchanged. -/
theorem InsertQueryBuilder.compile_is_transform_then_compile
    (b : InsertQueryBuilder) (d : Driver) :
    b.compile =
        b.props.executor.compileQuery
          (b.props.executor.transformQuery b.props.queryNode b.props.queryId)
          b.props.queryId ∧
      (b.compile).query = b.toOperationNode ∧
      (InsertQueryBuilder.mk'
          { b.props with
            executor := b.props.executor.withDriver d }).compile =
        b.compile :=
  ⟨rfl, rfl, rfl⟩

/-- C4: when execution yields zero rows, executeTakeFirstOrThrow fails with
the default no-result error, or with the supplied constructor's error, or
with the exact value of the supplied callback, each receiving the operation
node; when execution yields at least one row it returns the first row. -/
theorem InsertQueryBuilder.executeTakeFirstOrThrow_spec
    (b : InsertQueryBuilder) :
    (b.execute = [] →
      b.executeTakeFirstOrThrowDefault =
          Except.error (QueryError.noResult b.toOperationNode) ∧
        (∀ build : InsertQueryNode → QueryError,
          b.executeTakeFirstOrThrow (NoResultErrorArg.ctor build) =
            Except.error (build b.toOperationNode)) ∧
        (∀ f : InsertQueryNode → QueryError,
          b.executeTakeFirstOrThrow (NoResultErrorArg.callback f) =
            Except.error (f b.toOperationNode))) ∧
    (∀ (r : ExecRow) (rest : List ExecRow), b.execute = r :: rest →
      ∀ arg : NoResultErrorArg,
        b.executeTakeFirstOrThrow arg = Except.ok r) := by
  constructor
  · intro h
    refine ⟨?_, ?_, ?_⟩
    · simp [InsertQueryBuilder.executeTakeFirstOrThrowDefault,
        InsertQueryBuilder.executeTakeFirstOrThrow,
        InsertQueryBuilder.executeTakeFirst, h]
    · intro build
      simp [InsertQueryBuilder.executeTakeFirstOrThrow,
        InsertQueryBuilder.executeTakeFirst, h]
    · intro f
      simp [InsertQueryBuilder.executeTakeFirstOrThrow,
        InsertQueryBuilder.executeTakeFirst, h]
  · intro r rest h arg
    simp [InsertQueryBuilder.executeTakeFirstOrThrow,
      InsertQueryBuilder.executeTakeFirst, h]

/-- Witness for C4: on a zero-row execution the default error, a callback
error, and on a two-row execution the first row. -/
theorem InsertQueryBuilder.executeTakeFirstOrThrow_spec_witness :
    InsertQueryBuilder.executeTakeFirstOrThrowDefault builderEmptyRows =
        Except.error (QueryError.noResult returningNode) ∧
      InsertQueryBuilder.executeTakeFirstOrThrow builderEmptyRows
          (NoResultErrorArg.callback (QueryError.custom 5)) =
        Except.error (QueryError.custom 5 returningNode) ∧
      InsertQueryBuilder.executeTakeFirstOrThrowDefault builderWithReturning =
        Except.ok (Sum.inl 10) := by
  have h1 :=
    (InsertQueryBuilder.executeTakeFirstOrThrow_spec builderEmptyRows).1 rfl
  have h2 :=
    (InsertQueryBuilder.executeTakeFirstOrThrow_spec builderWithReturning).2
      (Sum.inl 10) [Sum.inl 20] rfl
  exact ⟨h1.1, h1.2.2 (QueryError.custom 5),
    h2 (NoResultErrorArg.ctor QueryError.noResult)⟩

/-- C5: the conditional-attach combinator applies the transform exactly when
the flag is true, and when the flag is false it returns the current builder
unchanged (same props: query id, root and executor), never applying the
transform. -/
theorem InsertQueryBuilder.dollarIf_spec (b : InsertQueryBuilder)
    (f : InsertQueryBuilder → InsertQueryBuilder) :
    b.dollarIf true f = f b ∧ b.dollarIf false f = b :=
  ⟨rfl, rfl⟩

/-- C6: stream yields exactly the rows of the executor's chunks flattened in
chunk order and within-chunk order; for a plugin-free executor these are
exactly the driver's chunk rows; and the no-argument form requests chunk
size 100 from the executor. -/
theorem InsertQueryBuilder.stream_flattens_chunks (b : InsertQueryBuilder)
    (n : Nat) :
    b.stream n =
        (b.props.executor.stream b.compile n b.props.queryId).flatten ∧
      b.streamDefault =
        (b.props.executor.stream b.compile 100 b.props.queryId).flatten ∧
      (b.props.executor.plugins = [] →
        b.stream n =
            (b.props.executor.driver.streamQuery b.compile n).flatten ∧
          b.streamDefault =
            (b.props.executor.driver.streamQuery b.compile 100).flatten) := by
  refine ⟨rfl, rfl, ?_⟩
  intro h
  constructor
  · simp [InsertQueryBuilder.stream, QueryExecutor.stream,
      QueryExecutor.transformResult, h]
  · simp [InsertQueryBuilder.streamDefault, InsertQueryBuilder.stream,
      QueryExecutor.stream, QueryExecutor.transformResult, h]

/-- Witness for C6: driver chunks of sizes 2, 2 and 1 yield exactly the five
rows in original order. -/
theorem InsertQueryBuilder.stream_flattens_chunks_witness :
    InsertQueryBuilder.stream builderWithReturning 2 = [1, 2, 3, 4, 5] ∧
      InsertQueryBuilder.streamDefault builderWithReturning =
        [1, 2, 3, 4, 5] := by
  have h :=
    (InsertQueryBuilder.stream_flattens_chunks builderWithReturning 2).2.2 rfl
  exact ⟨h.1, h.2⟩

/-- C7: the query identity token is threaded unchanged through every derived
builder (values, columns, expression, ignore, onConflict,
onDuplicateKeyUpdate, returning, returningAll, withPlugin, both branches of
the conditional combinator, the cast, and the builder explain executes), and
that same token is the one handed to the executor by toOperationNode,
compile, execute and stream. -/
theorem InsertQueryBuilder.queryId_threaded
    (b : InsertQueryBuilder) (i : InsertExpression) (cols : List Nat)
    (e : ExpressionArg) (cb : OnConflictBuilder → OnConflictDoneBuilder)
    (u : UpdateExpression) (sel : List SelectionNode) (p : KyselyPlugin)
    (f : InsertQueryBuilder → InsertQueryBuilder) (fmt opts : Option Nat)
    (n : Nat) :
    (b.values i).props.queryId = b.props.queryId ∧
    (b.columns cols).props.queryId = b.props.queryId ∧
    (b.expression e).props.queryId = b.props.queryId ∧
    (b.ignore).props.queryId = b.props.queryId ∧
    (b.onConflict cb).props.queryId = b.props.queryId ∧
    (b.onDuplicateKeyUpdate u).props.queryId = b.props.queryId ∧
    (b.returning sel).props.queryId = b.props.queryId ∧
    (b.returningAll).props.queryId = b.props.queryId ∧
    (b.withPlugin p).props.queryId = b.props.queryId ∧
    (b.dollarCastTo).props.queryId = b.props.queryId ∧
    b.dollarIf true f = f b ∧
    (b.dollarIf false f).props.queryId = b.props.queryId ∧
    b.toOperationNode =
      b.props.executor.transformQuery b.props.queryNode b.props.queryId ∧
    b.compile =
      b.props.executor.compileQuery b.toOperationNode b.props.queryId ∧
    b.execute =
      (fun result =>
        if b.props.executor.adapter.supportsReturning &&
            (b.compile).query.returning.isSome then
          result.rows.map Sum.inl
        else
          [Sum.inr
            ⟨result.insertId,
              result.numAffectedRows.orElse
                (fun _ => result.numUpdatedOrDeletedRows)⟩])
        (b.props.executor.executeQuery b.compile b.props.queryId) ∧
    b.stream n =
      (b.props.executor.stream b.compile n b.props.queryId).flatten ∧
    b.explain fmt opts =
      (InsertQueryBuilder.mk'
        ⟨b.props.queryId,
          QueryNode.cloneWithExplain b.props.queryNode fmt opts,
          b.props.executor⟩).execute :=
  ⟨rfl, rfl, rfl, rfl, rfl, rfl, rfl, rfl, rfl, rfl, rfl, rfl, rfl, rfl,
    rfl, rfl, rfl⟩

/-- C8: withPlugin returns a builder whose executor is the original executor
with the plugin appended to its plugin list, keeping the query node and the
query identity token exactly as they were. -/
theorem InsertQueryBuilder.withPlugin_spec (b : InsertQueryBuilder)
    (p : KyselyPlugin) :
    (b.withPlugin p).props.executor = b.props.executor.withPlugin p ∧
      (b.withPlugin p).props.executor.plugins =
        b.props.executor.plugins ++ [p] ∧
      (b.withPlugin p).props.queryNode = b.props.queryNode ∧
      (b.withPlugin p).props.queryId = b.props.queryId :=
  ⟨rfl, rfl, rfl, rfl⟩

/-- C9: executeTakeFirst is the head of execute's result on the same
builder, and it is the empty-result marker exactly when that result is
empty. -/
theorem InsertQueryBuilder.executeTakeFirst_head (b : InsertQueryBuilder) :
    b.executeTakeFirst = (b.execute).head? ∧
      (b.executeTakeFirst = none ↔ b.execute = []) := by
  refine ⟨rfl, ?_⟩
  cases h : b.execute <;>
    simp [InsertQueryBuilder.executeTakeFirst, h]

/-- C10: an insert executed with a returning-incapable adapter, or whose
compiled query has no returning clause, always yields the one-element
synthesized result list, so executeTakeFirst is never the empty-result
marker and executeTakeFirstOrThrow never throws. -/
theorem InsertQueryBuilder.execute_nonempty_without_returning
    (b : InsertQueryBuilder)
    (h : b.props.executor.adapter.supportsReturning = false ∨
      (b.compile).query.returning = none) :
    (b.execute).length = 1 ∧
      b.executeTakeFirst = some (Sum.inr b.synthesizedInsertResult) ∧
      ∀ arg : NoResultErrorArg,
        b.executeTakeFirstOrThrow arg =
          Except.ok (Sum.inr b.synthesizedInsertResult) := by
  have he : b.execute = [Sum.inr b.synthesizedInsertResult] := by
    rcases h with h | h <;>
      simp [InsertQueryBuilder.execute,
        InsertQueryBuilder.synthesizedInsertResult, h]
  refine ⟨by rw [he]; rfl, ?_, ?_⟩
  · simp [InsertQueryBuilder.executeTakeFirst, he]
  · intro arg
    simp [InsertQueryBuilder.executeTakeFirstOrThrow,
      InsertQueryBuilder.executeTakeFirst, he]

/-- Witness for C10: with a returning-incapable adapter the driver's two
rows are not surfaced; the single synthesized result is returned, taken and
never turned into a no-result error. -/
theorem InsertQueryBuilder.execute_nonempty_without_returning_witness :
    InsertQueryBuilder.executeTakeFirst builderNoReturning =
        some (Sum.inr ⟨some 7, some 3⟩) ∧
      InsertQueryBuilder.executeTakeFirstOrThrowDefault builderNoReturning =
        Except.ok (Sum.inr ⟨some 7, some 3⟩) := by
  have h :=
    InsertQueryBuilder.execute_nonempty_without_returning builderNoReturning
      (Or.inl rfl)
  exact ⟨h.2.1, h.2.2 (NoResultErrorArg.ctor QueryError.noResult)⟩
